import Mathlib

/-!
Verification of the sarama error taxonomy and composition layer
(`errors.go`): sentinel errors, `Wrap`, `multiError`/aggregation via
hashicorp/go-multierror, the process-wide `MultiErrorFormat` policy, and
the `KError` protocol error-code table.

The shallow embedding models Go error values as an inductive type `GoErr`.
The external dependency hashicorp/go-multierror (v1.1.x) is embedded from
its actual implementation: `Append` (which drops nil entries and flattens
one level of `*multierror.Error`), `ErrorOrNil` (which returns nil for an
empty list and otherwise returns the container itself, even for a single
element), `ListFormatFunc` (the library default formatter) and the
`Error()` method (which falls back to `ListFormatFunc` when the stored
`ErrorFormat` is nil).

The process-wide mutable variable `MultiErrorFormat` is modelled by an
explicit parameter `gfmt : Option Fmt` passed to the constructors
(`multiError`, `Wrap`): it stands for the value of the global variable at
the moment of construction, which is when the source reads it
(`merr.ErrorFormat = MultiErrorFormat`). Rendering (`GoErr.error`) uses
only the formatter stored in the value, exactly as
`(*multierror.Error).Error` does. The definition `MultiErrorFormat` below
is the default (initial) value of the global variable, translated from the
source.

Formatters are modelled as functions `List String → String` applied to the
`Error()` texts of the aggregated errors; both concrete formatters in
scope (`MultiErrorFormat` and `ListFormatFunc`) only use the texts of the
errors they are given.
-/

set_option maxHeartbeats 1000000

namespace Sarama

/-- The type of error-formatting policies (`multierror.ErrorFormatFunc`),
applied to the rendered texts of the errors in an aggregate. -/
abbrev Fmt := List String → String

/-- `KError` is the type of numeric error codes returned by the Kafka
broker; a signed 16-bit integer in Go (`type KError int16`), modelled as
`Int` (all codes appearing in the table fit in 16 bits). -/
abbrev KError := Int

/-- Model of Go error values as used by `errors.go`:

* `base id msg` — a sentinel created by `errors.New(msg)`; `id` models the
  pointer identity of the allocation (two sentinels are `==` in Go iff
  they are the same allocation).
* `kerr code` — a `KError` value (comparable by numeric value).
* `sentinelE sentinel wrapped` — the `sentinelError` struct: a sentinel
  plus an optional wrapped (causal) error.
* `multi errs errorFormat` — a `*multierror.Error`: the `Errors` slice and
  the `ErrorFormat` field (`none` models a nil `ErrorFormat`). -/
inductive GoErr where
  | base (id : Nat) (msg : String)
  | kerr (code : KError)
  | sentinelE (sentinel : GoErr) (wrapped : Option GoErr)
  | multi (errs : List GoErr) (errorFormat : Option Fmt)

/-- Go `==` on error interface values, as used by `errors.Is`:
`errors.New` sentinels compare by allocation identity (the `id` field),
`KError` values compare by numeric value. `sentinelError` structs and
`*multierror.Error` pointers constructed by this package are fresh
composites and are never `==`-equal to any target tested in this
development; they are modelled as not identity-equal. -/
def goEq : GoErr → GoErr → Bool
  | .base i _, .base j _ => i == j
  | .kerr a, .kerr b => a == b
  | _, _ => false

/-- `isMulti e` is true exactly when `e` is a `*multierror.Error`
aggregate container (the one shape that `multierror.Append` flattens). -/
def isMulti : GoErr → Bool
  | .multi _ _ => true
  | _ => false

/-- The default value of the process-wide `MultiErrorFormat` variable,
translated from the source: a condensed version of the go-multierror
default — a single error renders as itself, otherwise a
`"<n> errors occurred:"` header followed by each text bulleted and
indented. -/
def MultiErrorFormat : Fmt := fun es =>
  match es with
  | [e] => e
  | _ =>
    toString es.length ++ " errors occurred:\n\t"
      ++ String.intercalate "\n\t" (es.map (fun e => "* " ++ e)) ++ "\n"

/-- `multierror.ListFormatFunc`, the library default formatter used by
`(*multierror.Error).Error()` when the stored `ErrorFormat` is nil.
Embedded from hashicorp/go-multierror `format.go`. -/
def listFormatFunc : Fmt := fun es =>
  match es with
  | [e] => "1 error occurred:\n\t* " ++ e ++ "\n\n"
  | _ =>
    toString es.length ++ " errors occurred:\n\t"
      ++ String.intercalate "\n\t" (es.map (fun e => "* " ++ e)) ++ "\n\n"

/-- The list of errors accumulated by `multierror.Append(nil, wrapped...)`
(hashicorp/go-multierror `append.go`): nil entries are dropped, and an
entry that is itself a `*multierror.Error` is flattened one level (its
`Errors` slice is spliced in; its stored `ErrorFormat` is discarded). -/
def appendErrs : List (Option GoErr) → List GoErr
  | [] => []
  | none :: rest => appendErrs rest
  | some (.multi es _) :: rest => es ++ appendErrs rest
  | some e :: rest => e :: appendErrs rest

/-- `multiError(wrapped...)` from the source: build
`multierror.Append(nil, wrapped...)`, install the global
`MultiErrorFormat` as the container's `ErrorFormat` when it is non-nil,
and return `merr.ErrorOrNil()` — `none` when the accumulated list is
empty, otherwise the container itself. `gfmt` is the value of the global
`MultiErrorFormat` variable at the moment of this construction. -/
def multiError (gfmt : Option Fmt) (wrapped : List (Option GoErr)) : Option GoErr :=
  match appendErrs wrapped with
  | [] => none
  | errs => some (.multi errs gfmt)

/-- `Wrap(sentinel, wrapped...)` from the source: a `sentinelError` whose
causal component is `multiError(wrapped...)`. `gfmt` is the value of the
global `MultiErrorFormat` variable at the moment of construction. -/
def Wrap (gfmt : Option Fmt) (sentinel : GoErr) (wrapped : List (Option GoErr)) : GoErr :=
  .sentinelE sentinel (multiError gfmt wrapped)

/-- The `Error()` method of `KError` (the big switch over the protocol
error-code table in the source), translated case by case; a Go `switch`
on a value is an ordered equality test chain. The fallthrough embeds the
numeric code verbatim (`%d` of an `int16` is its decimal rendering, which
`toString : Int -> String` reproduces). -/
def KError.Error (err : Int) : String :=
  if err = 0 then "kafka server: Not an error, why are you printing me?"
  else if err = -1 then "kafka server: Unexpected (unknown?) server error"
  else if err = 1 then "kafka server: The requested offset is outside the range of offsets maintained by the server for the given topic/partition"
  else if err = 2 then "kafka server: Message contents does not match its CRC"
  else if err = 3 then "kafka server: Request was for a topic or partition that does not exist on this broker"
  else if err = 4 then "kafka server: The message has a negative size"
  else if err = 5 then "kafka server: In the middle of a leadership election, there is currently no leader for this partition and hence it is unavailable for writes"
  else if err = 6 then "kafka server: Tried to send a message to a replica that is not the leader for some partition. Your metadata is out of date"
  else if err = 7 then "kafka server: Request exceeded the user-specified time limit in the request"
  else if err = 8 then "kafka server: Broker not available. Not a client facing error, we should never receive this!!!"
  else if err = 9 then "kafka server: Replica information not available, one or more brokers are down"
  else if err = 10 then "kafka server: Message was too large, server rejected it to avoid allocation error"
  else if err = 11 then "kafka server: StaleControllerEpochCode (internal error code for broker-to-broker communication)"
  else if err = 12 then "kafka server: Specified a string larger than the configured maximum for offset metadata"
  else if err = 13 then "kafka server: The server disconnected before a response was received"
  else if err = 14 then "kafka server: The broker is still loading offsets after a leader change for that offset's topic partition"
  else if err = 15 then "kafka server: Offset's topic has not yet been created"
  else if err = 16 then "kafka server: Request was for a consumer group that is not coordinated by this broker"
  else if err = 17 then "kafka server: The request attempted to perform an operation on an invalid topic"
  else if err = 18 then "kafka server: The request included message batch larger than the configured segment size on the server"
  else if err = 19 then "kafka server: Messages are rejected since there are fewer in-sync replicas than required"
  else if err = 20 then "kafka server: Messages are written to the log, but to fewer in-sync replicas than required"
  else if err = 21 then "kafka server: The number of required acks is invalid (should be either -1, 0, or 1)"
  else if err = 22 then "kafka server: The provided generation id is not the current generation"
  else if err = 23 then "kafka server: The provider group protocol type is incompatible with the other members"
  else if err = 24 then "kafka server: The provided group id was empty"
  else if err = 25 then "kafka server: The provided member is not known in the current generation"
  else if err = 26 then "kafka server: The provided session timeout is outside the allowed range"
  else if err = 27 then "kafka server: A rebalance for the group is in progress. Please re-join the group"
  else if err = 28 then "kafka server: The provided commit metadata was too large"
  else if err = 29 then "kafka server: The client is not authorized to access this topic"
  else if err = 30 then "kafka server: The client is not authorized to access this group"
  else if err = 31 then "kafka server: The client is not authorized to send this request type"
  else if err = 32 then "kafka server: The timestamp of the message is out of acceptable range"
  else if err = 33 then "kafka server: The broker does not support the requested SASL mechanism"
  else if err = 34 then "kafka server: Request is not valid given the current SASL state"
  else if err = 35 then "kafka server: The version of API is not supported"
  else if err = 36 then "kafka server: Topic with this name already exists"
  else if err = 37 then "kafka server: Number of partitions is invalid"
  else if err = 38 then "kafka server: Replication-factor is invalid"
  else if err = 39 then "kafka server: Replica assignment is invalid"
  else if err = 40 then "kafka server: Configuration is invalid"
  else if err = 41 then "kafka server: This is not the correct controller for this cluster"
  else if err = 42 then "kafka server: This most likely occurs because of a request being malformed by the client library or the message was sent to an incompatible broker. See the broker logs for more details"
  else if err = 43 then "kafka server: The requested operation is not supported by the message format version"
  else if err = 44 then "kafka server: Request parameters do not satisfy the configured policy"
  else if err = 45 then "kafka server: The broker received an out of order sequence number"
  else if err = 46 then "kafka server: The broker received a duplicate sequence number"
  else if err = 47 then "kafka server: Producer attempted an operation with an old epoch"
  else if err = 48 then "kafka server: The producer attempted a transactional operation in an invalid state"
  else if err = 49 then "kafka server: The producer attempted to use a producer id which is not currently assigned to its transactional id"
  else if err = 50 then "kafka server: The transaction timeout is larger than the maximum value allowed by the broker (as configured by max.transaction.timeout.ms)"
  else if err = 51 then "kafka server: The producer attempted to update a transaction while another concurrent operation on the same transaction was ongoing"
  else if err = 52 then "kafka server: The transaction coordinator sending a WriteTxnMarker is no longer the current coordinator for a given producer"
  else if err = 53 then "kafka server: Transactional ID authorization failed"
  else if err = 54 then "kafka server: Security features are disabled"
  else if err = 55 then "kafka server: The broker did not attempt to execute this operation"
  else if err = 56 then "kafka server: Disk error when trying to access log file on the disk"
  else if err = 57 then "kafka server: The specified log directory is not found in the broker config"
  else if err = 58 then "kafka server: SASL Authentication failed"
  else if err = 59 then "kafka server: The broker could not locate the producer metadata associated with the Producer ID"
  else if err = 60 then "kafka server: A partition reassignment is in progress"
  else if err = 61 then "kafka server: Delegation Token feature is not enabled"
  else if err = 62 then "kafka server: Delegation Token is not found on server"
  else if err = 63 then "kafka server: Specified Principal is not valid Owner/Renewer"
  else if err = 64 then "kafka server: Delegation Token requests are not allowed on PLAINTEXT/1-way SSL channels and on delegation token authenticated channels"
  else if err = 65 then "kafka server: Delegation Token authorization failed"
  else if err = 66 then "kafka server: Delegation Token is expired"
  else if err = 67 then "kafka server: Supplied principalType is not supported"
  else if err = 68 then "kafka server: The group is not empty"
  else if err = 69 then "kafka server: The group id does not exist"
  else if err = 70 then "kafka server: The fetch session ID was not found"
  else if err = 71 then "kafka server: The fetch session epoch is invalid"
  else if err = 72 then "kafka server: There is no listener on the leader broker that matches the listener on which metadata request was processed"
  else if err = 73 then "kafka server: Topic deletion is disabled"
  else if err = 74 then "kafka server: The leader epoch in the request is older than the epoch on the broker"
  else if err = 75 then "kafka server: The leader epoch in the request is newer than the epoch on the broker"
  else if err = 76 then "kafka server: The requesting client does not support the compression type of given partition"
  else if err = 77 then "kafka server: Broker epoch has changed"
  else if err = 78 then "kafka server: The leader high watermark has not caught up from a recent leader election so the offsets cannot be guaranteed to be monotonically increasing"
  else if err = 79 then "kafka server: The group member needs to have a valid member id before actually entering a consumer group"
  else if err = 80 then "kafka server: The preferred leader was not available"
  else if err = 81 then "kafka server: Consumer group The consumer group has reached its max size. already has the configured maximum number of members"
  else if err = 82 then "kafka server: The broker rejected this static consumer since another consumer with the same group.instance.id has registered with a different member.id"
  else if err = 83 then "kafka server: Eligible topic partition leaders are not available"
  else if err = 84 then "kafka server: Leader election not needed for topic partition"
  else if err = 85 then "kafka server: No partition reassignment is in progress"
  else if err = 86 then "kafka server: Deleting offsets of a topic is forbidden while the consumer group is actively subscribed to it"
  else if err = 87 then "kafka server: This record has failed the validation on broker and hence will be rejected"
  else if err = 88 then "kafka server: There are unstable offsets that need to be cleared"
  else "Unknown error, how did this happen? Error code = " ++ toString err

mutual

/-- The `Error()` method of each modelled error value:
* `base`: the text given to `errors.New`;
* `kerr`: `KError.Error` (defined below as `KError.Error`);
* `sentinelE`: `"<sentinel>: <wrapped>"` when a cause exists, else the
  sentinel's text (source `sentinelError.Error`);
* `multi`: the stored `ErrorFormat` — or `ListFormatFunc` when none is
  stored — applied to the member texts (go-multierror
  `(*Error).Error()`). -/
def GoErr.error : GoErr → String
  | .base _ msg => msg
  | .kerr code => KError.Error code
  | .sentinelE s w =>
    match w with
    | some c => GoErr.error s ++ ": " ++ GoErr.error c
    | none => GoErr.error s
  | .multi errs f => (f.getD listFormatFunc) (errorTexts errs)

/-- The `Error()` texts of a list of errors. -/
def errorTexts : List GoErr → List String
  | [] => []
  | e :: es => GoErr.error e :: errorTexts es

end

/-- The `Unwrap` method of `sentinelError`: returns only the causal
component, never the sentinel. Values without an `Unwrap` method yield
`none`. -/
def GoErr.unwrapped : GoErr → Option GoErr
  | .sentinelE _ w => w
  | _ => none

mutual

/-- `errors.Is(err, target)` from the Go standard library, specialised to
the method sets of the values modelled here:
* every step first compares `err == target` (`goEq`);
* `sentinelError` has an `Is` method
  (`errors.Is(err.sentinel, target) || errors.Is(err.wrapped, target)`)
  and an `Unwrap` method returning the wrapped error — together these
  amount to testing the sentinel and the cause recursively;
* a `*multierror.Error` has an `Unwrap` method producing its single
  member, or a `chain` over its members; walking that chain tests
  `errors.Is(member, target)` for each member in order, which is the
  disjunction `goIsList`;
* `base`/`kerr` have neither method, so only the `==` test applies. -/
def goIs : GoErr → GoErr → Bool
  | .sentinelE s w, t =>
    goEq (.sentinelE s w) t || goIs s t ||
      (match w with
       | some c => goIs c t
       | none => false)
  | .multi es f, t => goEq (.multi es f) t || goIsList es t
  | e, t => goEq e t

/-- `errors.Is` of a target against each member of a go-multierror
`chain`, in order. -/
def goIsList : List GoErr → GoErr → Bool
  | [], _ => false
  | e :: rest, t => goIs e t || goIsList rest t

end

/-- The sentinel `ErrOutOfBrokers` from the catalog
(`errors.New("kafka: client has run out of available brokers to talk to")`);
the `id` 0 models its allocation identity. -/
def ErrOutOfBrokers : GoErr :=
  .base 0 "kafka: client has run out of available brokers to talk to"

/-- The sentinel `ErrClosedClient` from the catalog
(`errors.New("kafka: tried to use a client that was closed")`). -/
def ErrClosedClient : GoErr :=
  .base 1 "kafka: tried to use a client that was closed"

/-- The sentinel `ErrNotConnected` from the catalog
(`errors.New("kafka: broker not connected")`). -/
def ErrNotConnected : GoErr :=
  .base 2 "kafka: broker not connected"

/-- The codes present in the `KError.Error` switch table: the explicit
cases are exactly the named constants, whose values are `-1` and `0`
through `88`. -/
def knownKError (k : Int) : Bool :=
  k == -1 || (decide (0 ≤ k) && decide (k ≤ 88))

theorem appendErrs_cons_of_not_multi (e : GoErr) (rest : List (Option GoErr))
    (h : isMulti e = false) :
    appendErrs (some e :: rest) = e :: appendErrs rest := by
  cases e <;> simp_all [appendErrs, isMulti]

theorem errorTexts_eq_map (l : List GoErr) : errorTexts l = l.map GoErr.error := by
  induction l with
  | nil => rfl
  | cons e es ih => simp [errorTexts, ih]

theorem error_multi_eq (es : List GoErr) (f : Option Fmt) :
    GoErr.error (.multi es f) = (f.getD listFormatFunc) (errorTexts es) := rfl

/-- Claim C1, counterexample. The claim asserts that reassigning the
process-wide `MultiErrorFormat` policy takes effect for aggregates that
were already constructed but not yet rendered. It does not: `multiError`
copies the global variable into the container's `ErrorFormat` field at
construction time, and `(*multierror.Error).Error` renders with the
stored copy. Concretely, an aggregate of the two errors `"a"` and `"b"`
built while the policy is `P1 = fun _ => "policy one"` renders as
`"policy one"`, whereas the replacement policy `P2 = fun _ => "policy two"`
yields `"policy two"` on that same error list — so rendering after the
reassignment produces P1's text, not P2's. -/
theorem c1_counterexample :
    (multiError (some (fun _ => "policy one"))
        [some (GoErr.base 0 "a"), some (GoErr.base 1 "b")]).map GoErr.error
      = some "policy one" ∧
    (fun _ : List String => "policy two")
        [GoErr.error (GoErr.base 0 "a"), GoErr.error (GoErr.base 1 "b")]
      = "policy two" ∧
    ("policy one" : String) ≠ "policy two" :=
  ⟨rfl, rfl, by decide⟩

/-- Claim C1, amended: reassigning the process-wide `MultiErrorFormat`
policy takes effect only for aggregates constructed afterwards. An
aggregate constructed while policy `P1` is installed renders under `P1`
(applied to the member texts, in order), regardless of any later
reassignment: rendering consults only the formatter captured at
construction time. -/
theorem c1_amended (P1 : Fmt) (es : List (Option GoErr)) (m : GoErr)
    (h : multiError (some P1) es = some m) :
    GoErr.error m = P1 (errorTexts (appendErrs es)) := by
  unfold multiError at h
  cases hE : appendErrs es with
  | nil =>
    rw [hE] at h
    exact Option.noConfusion h
  | cons a l =>
    rw [hE] at h
    injection h with h
    rw [← h]
    rfl

/-- Witness for `c1_amended` at a concrete two-error aggregate and a
concrete constant policy. -/
theorem c1_amended_witness :
    GoErr.error (GoErr.multi [GoErr.base 0 "a", GoErr.base 1 "b"]
        (some (fun _ => "policy one")))
      = (fun _ : List String => "policy one")
          (errorTexts (appendErrs [some (GoErr.base 0 "a"), some (GoErr.base 1 "b")])) :=
  c1_amended (fun _ => "policy one")
    [some (GoErr.base 0 "a"), some (GoErr.base 1 "b")] _ rfl

/-- Claim C2, counterexample. The claim asserts `Aggregate([e])` is `e`
itself. It is not: `multierror.Append` builds a `*multierror.Error`
container holding `[e]` and `ErrorOrNil` returns that container whenever
the list is non-empty — also for a single element. At the concrete error
`base 0 "boom"`, the result is the one-element container, a different
value. -/
theorem c2_counterexample :
    multiError (some MultiErrorFormat) [some (GoErr.base 0 "boom")]
      ≠ some (GoErr.base 0 "boom") := by
  simp [multiError, appendErrs]

/-- Claim C2, amended: for every non-nil, non-aggregate error `e`,
`Aggregate([e])` returns a one-element aggregate container holding `e` —
not `e` itself — and that container's rendered text (under the installed
default policy, whose single-element case returns the element's text
unmodified) is exactly `e`'s text, so aggregation adds no layer to the
rendered output. -/
theorem c2_amended (e : GoErr) (he : isMulti e = false) :
    multiError (some MultiErrorFormat) [some e]
      = some (GoErr.multi [e] (some MultiErrorFormat)) ∧
    GoErr.error (GoErr.multi [e] (some MultiErrorFormat)) = GoErr.error e := by
  refine ⟨?_, rfl⟩
  unfold multiError
  rw [appendErrs_cons_of_not_multi e [] he]
  rfl

/-- Witness for `c2_amended` at the concrete sentinel `ErrOutOfBrokers`. -/
theorem c2_amended_witness :
    multiError (some MultiErrorFormat) [some ErrOutOfBrokers]
      = some (GoErr.multi [ErrOutOfBrokers] (some MultiErrorFormat)) ∧
    GoErr.error (GoErr.multi [ErrOutOfBrokers] (some MultiErrorFormat))
      = GoErr.error ErrOutOfBrokers :=
  c2_amended ErrOutOfBrokers rfl

/-- Claim C3, counterexample. The claim asserts that the causal component
stored by `Wrap(S, c)` is `c` itself, so unwrapping yields `c` directly.
It is not: `Wrap` stores `multiError(c)`, which is a one-element
`*multierror.Error` container around `c`, and `sentinelError.Unwrap`
returns that container. Concretely, unwrapping
`Wrap(ErrOutOfBrokers, ErrNotConnected)` does not yield
`ErrNotConnected`. -/
theorem c3_counterexample :
    GoErr.unwrapped
        (Wrap (some MultiErrorFormat) ErrOutOfBrokers [some ErrNotConnected])
      ≠ some ErrNotConnected := by
  simp [Wrap, multiError, appendErrs, GoErr.unwrapped, ErrOutOfBrokers,
    ErrNotConnected]

/-- Claim C3, amended: for every non-aggregate sentinel `S` and
non-aggregate cause `c`, the causal component stored by `Wrap(S, c)` is a
one-element aggregate container holding `c` (not `c` itself), so `Unwrap`
yields that container — which renders exactly as `c` under the default
policy — and never yields `S`; and for a wrap with no cause, `Unwrap`
yields absent (nil). -/
theorem c3_amended (g : Option Fmt) (S c : GoErr)
    (hS : isMulti S = false) (hc : isMulti c = false) :
    GoErr.unwrapped (Wrap g S [some c]) = some (GoErr.multi [c] g) ∧
    GoErr.unwrapped (Wrap g S [some c]) ≠ some S ∧
    GoErr.error (GoErr.multi [c] (some MultiErrorFormat)) = GoErr.error c ∧
    GoErr.unwrapped (Wrap g S []) = none := by
  have h1 : GoErr.unwrapped (Wrap g S [some c]) = some (GoErr.multi [c] g) := by
    show multiError g [some c] = _
    unfold multiError
    rw [appendErrs_cons_of_not_multi c [] hc]
    rfl
  refine ⟨h1, ?_, rfl, rfl⟩
  rw [h1]
  intro hEq
  injection hEq with hEq
  rw [← hEq] at hS
  simp [isMulti] at hS

/-- Witness for `c3_amended` at concrete sentinels. -/
theorem c3_amended_witness :
    GoErr.unwrapped
        (Wrap (some MultiErrorFormat) ErrOutOfBrokers [some ErrNotConnected])
      = some (GoErr.multi [ErrNotConnected] (some MultiErrorFormat)) ∧
    GoErr.unwrapped
        (Wrap (some MultiErrorFormat) ErrOutOfBrokers [some ErrNotConnected])
      ≠ some ErrOutOfBrokers ∧
    GoErr.error (GoErr.multi [ErrNotConnected] (some MultiErrorFormat))
      = GoErr.error ErrNotConnected ∧
    GoErr.unwrapped (Wrap (some MultiErrorFormat) ErrOutOfBrokers []) = none :=
  c3_amended (some MultiErrorFormat) ErrOutOfBrokers ErrNotConnected rfl rfl

/-- Claim C4: identity testing on a wrapped error. For sentinels
`S = base i m`, `c = base j n`, `q = base q r` and target `X = base k p`,
`errors.Is(Wrap(S, c), X)` is true exactly when `X` is identity-equal to
the sentinel `S` or to the cause `c` reachable through the causal chain;
with two causes, exactly when `X` is identity-equal to `S` or to either
cause (the whole chain is walked). In particular `Is(Wrap(S, c), S)` and
`Is(Wrap(S, c), c)` are true and `Is(Wrap(S, c), X)` is false for an `X`
unrelated to both. -/
theorem c4_is_iff (g : Option Fmt) (i j q k : Nat) (m n r p : String) :
    goIs (Wrap g (GoErr.base i m) [some (GoErr.base j n)]) (GoErr.base k p)
      = (i == k || j == k) ∧
    goIs (Wrap g (GoErr.base i m) [some (GoErr.base j n), some (GoErr.base q r)])
        (GoErr.base k p)
      = (i == k || (j == k || q == k)) := by
  constructor <;>
    simp [Wrap, multiError, appendErrs, goIs, goIsList, goEq]

/-- Claim C5, counterexample. The claim asserts `Wrap(S, c)` renders as
`"<S's text>: <c's text>"` for every non-nil cause `c`. It fails when `c`
is itself an aggregate container: `Wrap` flattens the container into its
own aggregate and re-renders its members under the formatter captured at
construction, so the cause's own text is not preserved. Concretely, with
the default policy installed and
`c = &multierror.Error{Errors: [x]}` (nil `ErrorFormat`),
`Wrap(base 0 "s", c)` renders `"s: x"` while
`"<S's text>: <c's text>"` is `"s: 1 error occurred:\n\t* x\n\n"`. -/
theorem c5_counterexample :
    GoErr.error (Wrap (some MultiErrorFormat) (GoErr.base 0 "s")
        [some (GoErr.multi [GoErr.base 1 "x"] none)])
      = "s: x" ∧
    GoErr.error (GoErr.base 0 "s") ++ ": "
        ++ GoErr.error (GoErr.multi [GoErr.base 1 "x"] none)
      = "s: 1 error occurred:\n\t* x\n\n" ∧
    ("s: x" : String) ≠ "s: 1 error occurred:\n\t* x\n\n" :=
  ⟨rfl, rfl, by decide⟩

/-- Claim C5, amended: under the default policy, `Wrap(S)` with no cause
renders exactly as `S`'s text; for every non-aggregate cause `c`,
`Wrap(S, c)` renders exactly `"<S's text>: <c's text>"`; and
`Wrap(S, c1, c2)` renders exactly `"<S's text>: <m's text>"` where `m` is
the aggregate of `c1` and `c2` (constructed under the same policy). For a
cause that is itself an aggregate container, `Wrap` flattens it and the
single-cause equation can fail (see the counterexample). -/
theorem c5_amended (S c c1 c2 m : GoErr)
    (hc : isMulti c = false)
    (hm : multiError (some MultiErrorFormat) [some c1, some c2] = some m) :
    GoErr.error (Wrap (some MultiErrorFormat) S []) = GoErr.error S ∧
    GoErr.error (Wrap (some MultiErrorFormat) S [some c])
      = GoErr.error S ++ ": " ++ GoErr.error c ∧
    GoErr.error (Wrap (some MultiErrorFormat) S [some c1, some c2])
      = GoErr.error S ++ ": " ++ GoErr.error m := by
  refine ⟨rfl, ?_, ?_⟩
  · show GoErr.error
        (.sentinelE S (multiError (some MultiErrorFormat) [some c])) = _
    have h1 : multiError (some MultiErrorFormat) [some c]
        = some (GoErr.multi [c] (some MultiErrorFormat)) := by
      unfold multiError
      rw [appendErrs_cons_of_not_multi c [] hc]
      rfl
    rw [h1]
    rfl
  · show GoErr.error
        (.sentinelE S (multiError (some MultiErrorFormat) [some c1, some c2])) = _
    rw [hm]
    rfl

/-- Witness for `c5_amended` at concrete sentinels from the catalog. -/
theorem c5_amended_witness :
    GoErr.error (Wrap (some MultiErrorFormat) ErrOutOfBrokers [])
      = GoErr.error ErrOutOfBrokers ∧
    GoErr.error (Wrap (some MultiErrorFormat) ErrOutOfBrokers [some ErrClosedClient])
      = GoErr.error ErrOutOfBrokers ++ ": " ++ GoErr.error ErrClosedClient ∧
    GoErr.error (Wrap (some MultiErrorFormat) ErrOutOfBrokers
        [some ErrClosedClient, some ErrNotConnected])
      = GoErr.error ErrOutOfBrokers ++ ": "
          ++ GoErr.error
              (GoErr.multi [ErrClosedClient, ErrNotConnected] (some MultiErrorFormat)) :=
  c5_amended ErrOutOfBrokers ErrClosedClient ErrClosedClient ErrNotConnected
    (GoErr.multi [ErrClosedClient, ErrNotConnected] (some MultiErrorFormat)) rfl rfl

theorem kerror_fallback (k : Int) (hk : knownKError k = false) :
    KError.Error k
      = "Unknown error, how did this happen? Error code = " ++ toString k := by
  have hA : k ≠ -1 := by
    intro h
    subst h
    simp [knownKError] at hk
  have hB : ¬(0 ≤ k ∧ k ≤ 88) := by
    intro h
    simp [knownKError, h.1, h.2] at hk
  unfold KError.Error
  rw [if_neg (show ¬(k = 0) by omega), if_neg (show ¬(k = -1) by omega), if_neg (show ¬(k = 1) by omega), if_neg (show ¬(k = 2) by omega), if_neg (show ¬(k = 3) by omega), if_neg (show ¬(k = 4) by omega), if_neg (show ¬(k = 5) by omega), if_neg (show ¬(k = 6) by omega), if_neg (show ¬(k = 7) by omega), if_neg (show ¬(k = 8) by omega), if_neg (show ¬(k = 9) by omega), if_neg (show ¬(k = 10) by omega), if_neg (show ¬(k = 11) by omega), if_neg (show ¬(k = 12) by omega), if_neg (show ¬(k = 13) by omega), if_neg (show ¬(k = 14) by omega), if_neg (show ¬(k = 15) by omega), if_neg (show ¬(k = 16) by omega), if_neg (show ¬(k = 17) by omega), if_neg (show ¬(k = 18) by omega), if_neg (show ¬(k = 19) by omega), if_neg (show ¬(k = 20) by omega), if_neg (show ¬(k = 21) by omega), if_neg (show ¬(k = 22) by omega), if_neg (show ¬(k = 23) by omega), if_neg (show ¬(k = 24) by omega), if_neg (show ¬(k = 25) by omega), if_neg (show ¬(k = 26) by omega), if_neg (show ¬(k = 27) by omega), if_neg (show ¬(k = 28) by omega), if_neg (show ¬(k = 29) by omega), if_neg (show ¬(k = 30) by omega), if_neg (show ¬(k = 31) by omega), if_neg (show ¬(k = 32) by omega), if_neg (show ¬(k = 33) by omega), if_neg (show ¬(k = 34) by omega), if_neg (show ¬(k = 35) by omega), if_neg (show ¬(k = 36) by omega), if_neg (show ¬(k = 37) by omega), if_neg (show ¬(k = 38) by omega), if_neg (show ¬(k = 39) by omega), if_neg (show ¬(k = 40) by omega), if_neg (show ¬(k = 41) by omega), if_neg (show ¬(k = 42) by omega), if_neg (show ¬(k = 43) by omega), if_neg (show ¬(k = 44) by omega), if_neg (show ¬(k = 45) by omega), if_neg (show ¬(k = 46) by omega), if_neg (show ¬(k = 47) by omega), if_neg (show ¬(k = 48) by omega), if_neg (show ¬(k = 49) by omega), if_neg (show ¬(k = 50) by omega), if_neg (show ¬(k = 51) by omega), if_neg (show ¬(k = 52) by omega), if_neg (show ¬(k = 53) by omega), if_neg (show ¬(k = 54) by omega), if_neg (show ¬(k = 55) by omega), if_neg (show ¬(k = 56) by omega), if_neg (show ¬(k = 57) by omega), if_neg (show ¬(k = 58) by omega), if_neg (show ¬(k = 59) by omega), if_neg (show ¬(k = 60) by omega), if_neg (show ¬(k = 61) by omega), if_neg (show ¬(k = 62) by omega), if_neg (show ¬(k = 63) by omega), if_neg (show ¬(k = 64) by omega), if_neg (show ¬(k = 65) by omega), if_neg (show ¬(k = 66) by omega), if_neg (show ¬(k = 67) by omega), if_neg (show ¬(k = 68) by omega), if_neg (show ¬(k = 69) by omega), if_neg (show ¬(k = 70) by omega), if_neg (show ¬(k = 71) by omega), if_neg (show ¬(k = 72) by omega), if_neg (show ¬(k = 73) by omega), if_neg (show ¬(k = 74) by omega), if_neg (show ¬(k = 75) by omega), if_neg (show ¬(k = 76) by omega), if_neg (show ¬(k = 77) by omega), if_neg (show ¬(k = 78) by omega), if_neg (show ¬(k = 79) by omega), if_neg (show ¬(k = 80) by omega), if_neg (show ¬(k = 81) by omega), if_neg (show ¬(k = 82) by omega), if_neg (show ¬(k = 83) by omega), if_neg (show ¬(k = 84) by omega), if_neg (show ¬(k = 85) by omega), if_neg (show ¬(k = 86) by omega), if_neg (show ¬(k = 87) by omega), if_neg (show ¬(k = 88) by omega)]

theorem mef_two_or_more (x y : String) (t : List String) :
    MultiErrorFormat (x :: y :: t)
      = toString (x :: y :: t).length ++ " errors occurred:\n\t"
          ++ String.intercalate "\n\t" ((x :: y :: t).map (fun e => "* " ++ e))
          ++ "\n" := rfl

/-- Claim C6: the protocol-error-code rendering is total: for every code
not in the known table the result is the fallback message embedding the
exact decimal rendering of the code; every code yields a non-empty
string; code 29 yields its fixed table string; code 0 yields the message
explicitly stating it is not an error; and the unknown code 9001 yields a
message containing the literal substring 9001. -/
theorem c6_kerror_table (k : Int) (hk : knownKError k = false) :
    KError.Error k
      = "Unknown error, how did this happen? Error code = " ++ toString k ∧
    (∀ k2 : Int, KError.Error k2 ≠ "") ∧
    KError.Error 29
      = "kafka server: The client is not authorized to access this topic" ∧
    KError.Error 0 = "kafka server: Not an error, why are you printing me?" ∧
    KError.Error 9001
      = "Unknown error, how did this happen? Error code = 9001" := by
  refine ⟨kerror_fallback k hk, ?_, by decide, by decide, by decide⟩
  intro k2 h
  by_cases hq : knownKError k2 = true
  · have hb : k2 = -1 ∨ (0 ≤ k2 ∧ k2 ≤ 88) := by
      simpa [knownKError] using hq
    have hlb : -1 ≤ k2 := by omega
    have hub : k2 ≤ 88 := by omega
    interval_cases k2 <;> exact absurd h (by decide)
  · have hq2 : knownKError k2 = false := by
      revert hq
      cases knownKError k2 <;> simp
    rw [kerror_fallback k2 hq2] at h
    have h2 := congrArg String.length h
    rw [String.length_append] at h2
    have hpos :
        0 < ("Unknown error, how did this happen? Error code = ").length := by
      decide
    have h0 : ("" : String).length = 0 := rfl
    rw [h0] at h2
    omega

/-- Witness for `c6_kerror_table` at the concrete unknown code 9001. -/
theorem c6_kerror_table_witness :
    knownKError 9001 = false ∧
    (KError.Error 9001
        = "Unknown error, how did this happen? Error code = " ++ toString (9001 : Int) ∧
      (∀ k2 : Int, KError.Error k2 ≠ "") ∧
      KError.Error 29
        = "kafka server: The client is not authorized to access this topic" ∧
      KError.Error 0 = "kafka server: Not an error, why are you printing me?" ∧
      KError.Error 9001
        = "Unknown error, how did this happen? Error code = 9001") :=
  ⟨by decide, c6_kerror_table 9001 (by decide)⟩

/-- Claim C7: aggregation survives repeated composition without nesting:
for non-aggregate errors `a`, `b`, `c`, aggregating the aggregate of `a`
and `b` with `c` produces the single flat aggregate over `[a, b, c]`
(`multierror.Append` splices a `*multierror.Error` argument's members),
and under the default policy that flat aggregate renders as the
three-error bulleted list. -/
theorem c7_flat_composition (g : Option Fmt) (a b c : GoErr)
    (ha : isMulti a = false) (hb : isMulti b = false) (hc : isMulti c = false) :
    multiError g [multiError g [some a, some b], some c]
      = some (GoErr.multi [a, b, c] g) ∧
    GoErr.error (GoErr.multi [a, b, c] (some MultiErrorFormat))
      = MultiErrorFormat [GoErr.error a, GoErr.error b, GoErr.error c] ∧
    MultiErrorFormat [GoErr.error a, GoErr.error b, GoErr.error c]
      = "3 errors occurred:\n\t"
          ++ ("* " ++ GoErr.error a ++ "\n\t" ++ ("* " ++ GoErr.error b)
              ++ "\n\t" ++ ("* " ++ GoErr.error c)) ++ "\n" := by
  have step1 : MultiErrorFormat [GoErr.error a, GoErr.error b, GoErr.error c]
      = toString (3 : Nat) ++ " errors occurred:\n\t"
          ++ ("* " ++ GoErr.error a ++ "\n\t" ++ ("* " ++ GoErr.error b)
              ++ "\n\t" ++ ("* " ++ GoErr.error c)) ++ "\n" := rfl
  have step2 : toString (3 : Nat) ++ (" errors occurred:\n\t" : String)
      = "3 errors occurred:\n\t" := by decide
  rw [step2] at step1
  refine ⟨?_, rfl, step1⟩
  have h1 : multiError g [some a, some b] = some (GoErr.multi [a, b] g) := by
    unfold multiError
    rw [appendErrs_cons_of_not_multi a _ ha, appendErrs_cons_of_not_multi b _ hb]
    rfl
  rw [h1]
  have h2 : appendErrs [some (GoErr.multi [a, b] g), some c] = [a, b, c] := by
    have h3 := appendErrs_cons_of_not_multi c [] hc
    simp [appendErrs, h3]
  unfold multiError
  rw [h2]

/-- Witness for `c7_flat_composition` at concrete sentinels. -/
theorem c7_flat_composition_witness :
    multiError (some MultiErrorFormat)
        [multiError (some MultiErrorFormat) [some ErrOutOfBrokers, some ErrClosedClient],
          some ErrNotConnected]
      = some (GoErr.multi [ErrOutOfBrokers, ErrClosedClient, ErrNotConnected]
          (some MultiErrorFormat)) ∧
    GoErr.error (GoErr.multi [ErrOutOfBrokers, ErrClosedClient, ErrNotConnected]
        (some MultiErrorFormat))
      = MultiErrorFormat [GoErr.error ErrOutOfBrokers, GoErr.error ErrClosedClient,
          GoErr.error ErrNotConnected] ∧
    MultiErrorFormat [GoErr.error ErrOutOfBrokers, GoErr.error ErrClosedClient,
        GoErr.error ErrNotConnected]
      = "3 errors occurred:\n\t"
          ++ ("* " ++ GoErr.error ErrOutOfBrokers ++ "\n\t"
              ++ ("* " ++ GoErr.error ErrClosedClient)
              ++ "\n\t" ++ ("* " ++ GoErr.error ErrNotConnected)) ++ "\n" :=
  c7_flat_composition (some MultiErrorFormat) ErrOutOfBrokers ErrClosedClient
    ErrNotConnected rfl rfl rfl

/-- Claim C8: aggregation drops absent entries; when zero non-nil entries
remain the result is absent; and when two or more remain, the default
policy renders a `"<n> errors occurred:"` header followed by each
member's text bulleted and indented, in input order. -/
theorem c8_absent_and_order (g : Option Fmt) (es0 es1 es2 : List (Option GoErr))
    (m : GoErr)
    (h1 : appendErrs es1 = [])
    (hm : multiError (some MultiErrorFormat) es2 = some m)
    (hlen : 2 ≤ (appendErrs es2).length) :
    appendErrs (none :: es0) = appendErrs es0 ∧
    multiError g es1 = none ∧
    GoErr.error m
      = toString (appendErrs es2).length ++ " errors occurred:\n\t"
          ++ String.intercalate "\n\t"
              ((appendErrs es2).map (fun e => "* " ++ GoErr.error e)) ++ "\n" := by
  refine ⟨rfl, ?_, ?_⟩
  · unfold multiError
    rw [h1]
  · unfold multiError at hm
    cases hE : appendErrs es2 with
    | nil =>
      rw [hE] at hm
      exact Option.noConfusion hm
    | cons x t =>
      rw [hE] at hm
      injection hm with hm
      rw [hE] at hlen
      cases t with
      | nil =>
        exfalso
        simp at hlen
      | cons y t2 =>
        rw [← hm]
        show MultiErrorFormat (errorTexts (x :: y :: t2)) = _
        rw [errorTexts_eq_map, List.map_cons, List.map_cons, mef_two_or_more]
        simp only [List.length_cons, List.length_map, List.map_cons, List.map_map]
        rfl

/-- Witness for `c8_absent_and_order` at concrete inputs: a list of two
nils aggregates to absent, and a two-sentinel aggregate renders both
texts in input order. -/
theorem c8_absent_and_order_witness :
    appendErrs (none :: [some ErrOutOfBrokers]) = appendErrs [some ErrOutOfBrokers] ∧
    multiError (some MultiErrorFormat) [none, none] = none ∧
    GoErr.error (GoErr.multi [ErrOutOfBrokers, ErrClosedClient] (some MultiErrorFormat))
      = toString (appendErrs [some ErrOutOfBrokers, some ErrClosedClient]).length
          ++ " errors occurred:\n\t"
          ++ String.intercalate "\n\t"
              ((appendErrs [some ErrOutOfBrokers, some ErrClosedClient]).map
                (fun e => "* " ++ GoErr.error e)) ++ "\n" :=
  c8_absent_and_order (some MultiErrorFormat) [some ErrOutOfBrokers] [none, none]
    [some ErrOutOfBrokers, some ErrClosedClient]
    (GoErr.multi [ErrOutOfBrokers, ErrClosedClient] (some MultiErrorFormat))
    rfl rfl (by decide)

/-- Claim C9: code -1 (`ErrUnknown`) is an explicit table entry, distinct
from the not-in-table fallback path: `KError(-1).Error()` is the fixed
unknown-server-error message, not the generic fallback message that
embeds the numeric value. -/
theorem c9_err_unknown_entry :
    KError.Error (-1) = "kafka server: Unexpected (unknown?) server error" ∧
    KError.Error (-1)
      ≠ "Unknown error, how did this happen? Error code = " ++ toString (-1 : Int) :=
  ⟨by decide, by decide⟩

/-- Claim C10: when the global `MultiErrorFormat` variable is nil at
construction time, `multiError`'s nil check skips the assignment, so the
container's `ErrorFormat` stays nil and rendering falls back to the
library's default `ListFormatFunc` — rendering is total and never
invokes a nil function value. -/
theorem c10_nil_formatter_default (es : List (Option GoErr)) (m : GoErr)
    (h : multiError none es = some m) :
    m = GoErr.multi (appendErrs es) none ∧
    GoErr.error m = listFormatFunc (errorTexts (appendErrs es)) := by
  unfold multiError at h
  cases hE : appendErrs es with
  | nil =>
    rw [hE] at h
    exact Option.noConfusion h
  | cons a l =>
    rw [hE] at h
    injection h with h
    exact ⟨h.symm, by rw [← h]; rfl⟩

/-- Witness for `c10_nil_formatter_default` at a concrete two-sentinel
aggregate built while the global formatter is nil. -/
theorem c10_nil_formatter_default_witness :
    GoErr.multi [ErrOutOfBrokers, ErrClosedClient] none
        = GoErr.multi (appendErrs [some ErrOutOfBrokers, some ErrClosedClient]) none ∧
    GoErr.error (GoErr.multi [ErrOutOfBrokers, ErrClosedClient] none)
      = listFormatFunc
          (errorTexts (appendErrs [some ErrOutOfBrokers, some ErrClosedClient])) :=
  c10_nil_formatter_default [some ErrOutOfBrokers, some ErrClosedClient]
    (GoErr.multi [ErrOutOfBrokers, ErrClosedClient] none) rfl

end Sarama
